import Mathlib

set_option linter.unusedVariables false

/-!
Verification of the pyacp repository examples and generator scripts.

The definitions below are a shallow embedding of the Python sources:
`src/examples/agent.py` (ExampleAgent), `src/examples/echo_agent.py`
(EchoAgent), `src/examples/mini_swe_agent/agent.py` (MiniSweACPAgent and the
streaming mini agent), and `src/scripts/gen_schema.py`.  Async methods are
modelled as pure functions from their inputs (and explicit state) to the list
of session-update notifications they schedule, in schedule order, together
with their return value; exceptions are modelled with `Except` or explicit
result constructors.
-/

/-! ### Schema model (the generated pydantic classes the examples construct) -/

/-- A content block as constructed by the examples: only the text variant
(`TextContentBlock`, i.e. the renamed `ContentBlock1`) is ever built. -/
inductive ContentBlock where
  | text (text : String)
deriving DecidableEq

/-- Tool-call content as constructed by the mini agent:
`ContentToolCallContent(content=<block>)`. -/
inductive ToolCallContent where
  | content (content : ContentBlock)
deriving DecidableEq

/-- The session-update variants the examples construct.  Field lists follow
the keyword arguments passed at each construction site; pydantic fields not
passed there default to `none`. -/
inductive SessionUpdate where
  | agentMessageChunk (content : ContentBlock)
  | agentThoughtChunk (content : ContentBlock)
  | toolCallStart (toolCallId : String) (title : String) (kind : String)
      (status : String) (content : List ToolCallContent) (rawInputCommand : String)
  | toolCallProgress (toolCallId : String) (status : String)
      (content : Option (List ToolCallContent))
      (rawOutput : Option (String × Int))
deriving DecidableEq

/-- The tool-call id carried by a tool-call lifecycle update, `none` for the
message/thought chunk variants. -/
def SessionUpdate.toolId : SessionUpdate → Option String
  | .toolCallStart tid _ _ _ _ _ => some tid
  | .toolCallProgress tid _ _ _ => some tid
  | _ => none

/-- The status field of a tool-call lifecycle update. -/
def SessionUpdate.statusField : SessionUpdate → Option String
  | .toolCallStart _ _ _ st _ _ => some st
  | .toolCallProgress _ st _ _ => some st
  | _ => none

/-- `SessionNotification(session_id=..., update=...)`. -/
structure SessionNotif where
  sessionId : String
  update : SessionUpdate
deriving DecidableEq

/-- `PromptResponse(stop_reason=...)`. -/
structure PromptResponse where
  stopReason : String
deriving DecidableEq

/-- Modelled from the spec: the client capability option-set (spec section 3,
"Capabilities ... nested option-sets").  The generated class lives in
`src/acp/schema.py`, which is not under `src/`; no example handler ever
inspects a field of it, so it is kept abstract as a named marker. -/
structure ClientCapabilities where
  marker : Unit := ()
deriving DecidableEq

/-- `PromptCapabilities` as constructed by the mini agent
(`audio=False, image=False, embedded_context=True`). -/
structure PromptCapabilities where
  audio : Bool := false
  image : Bool := false
  embeddedContext : Bool := false
deriving DecidableEq

/-- `AgentCapabilities` as constructed by the mini agent. -/
structure AgentCapabilities where
  loadSession : Bool := false
  promptCapabilities : Option PromptCapabilities := none
deriving DecidableEq

/-- `InitializeRequest(protocol_version=..., client_capabilities=...)`. -/
structure InitializeRequest where
  protocolVersion : Int
  clientCapabilities : Option ClientCapabilities := none
deriving DecidableEq

/-- `InitializeResponse`.  Auth methods are opaque identifiers; every
construction site in `src/` passes `[]` or leaves the pydantic default. -/
structure InitializeResponse where
  protocolVersion : Int
  agentCapabilities : Option AgentCapabilities := none
  authMethods : List String := []
deriving DecidableEq

/-- Modelled from the spec: `PROTOCOL_VERSION`, the constant published by the
generated `acp.meta` module, which is not under `src/`.  Spec sections 4.F and
6 state the catalog publishes the meta file's version as a constant, and
scenario S1 fixes the effective version to `1`. -/
def PROTOCOL_VERSION : Int := 1

/-- A prompt content block as the prompt handlers see it: either a raw dict
(with optional `type` and `text` keys) or a pydantic model (with an optional
`text` attribute). -/
inductive PromptBlock where
  | dictBlock (type : Option String) (text : Option String)
  | modelBlock (text : Option String)
deriving DecidableEq

/-! ### ExampleAgent (src/examples/agent.py) -/

/-- The text `ExampleAgent.prompt` extracts from one prompt block
(lines 67-76 of `src/examples/agent.py`): a dict with `type == "text"`
yields its `text` (default `""`), any other dict yields `"<type>"` with the
`type` key defaulting to `"content"`, and a model yields its `text`
attribute, defaulting to `"<content>"`. -/
def exampleBlockText : PromptBlock → String
  | .dictBlock ty tx =>
    match ty with
    | some "text" => tx.getD ""
    | some t => "<" ++ t ++ ">"
    | none => "<" ++ "content" ++ ">"
  | .modelBlock tx => tx.getD "<content>"

/-- `ExampleAgent.prompt`: one prefix `agent_message_chunk`
(`"Client sent: "`), then one `agent_message_chunk` per prompt block echoing
its text, each sent via `sessionUpdate` in that order, then
`PromptResponse(stop_reason="end_turn")`. -/
def examplePrompt (sessionId : String) (blocks : List PromptBlock) :
    List SessionNotif × PromptResponse :=
  (⟨sessionId, .agentMessageChunk (.text "Client sent: ")⟩ ::
     blocks.map (fun b => ⟨sessionId, .agentMessageChunk (.text (exampleBlockText b))⟩),
   ⟨"end_turn"⟩)

/-- `ExampleAgent.initialize`: ignores the request and returns
`InitializeResponse(protocol_version=PROTOCOL_VERSION, agent_capabilities=None,
auth_methods=[])`. -/
def exampleInitialize (params : InitializeRequest) : InitializeResponse :=
  { protocolVersion := PROTOCOL_VERSION, agentCapabilities := none, authMethods := [] }

/-- `ExampleAgent.newSession`: returns `"sess-" + str(next_session_id)` and
increments the counter (which starts at `0` in the constructor). -/
def newSessionStep (nextSessionId : Nat) : String × Nat :=
  ("sess-" ++ Nat.repr nextSessionId, nextSessionId + 1)

/-- The session ids returned by `n` successive `newSession` calls starting
from counter state `st`, in call order. -/
def runNewSessions : Nat → Nat → List String
  | 0, _ => []
  | n + 1, st => (newSessionStep st).1 :: runNewSessions n (newSessionStep st).2

/-! ### EchoAgent (src/examples/echo_agent.py) -/

/-- `EchoAgent.initialize`: echoes the request's `protocol_version`; the other
response fields keep their pydantic defaults (`None` capabilities, no auth
methods, per the response shape in spec scenario S1). -/
def echoInitialize (params : InitializeRequest) : InitializeResponse :=
  { protocolVersion := params.protocolVersion }

/-- The text `EchoAgent.prompt` extracts from one block: dict `text` key or
model `text` attribute, defaulting to `""`. -/
def echoBlockText : PromptBlock → String
  | .dictBlock _ tx => tx.getD ""
  | .modelBlock tx => tx.getD ""

/-- `EchoAgent.prompt`: one `agent_message_chunk` per block, then
`end_turn`. -/
def echoPrompt (sessionId : String) (blocks : List PromptBlock) :
    List SessionNotif × PromptResponse :=
  (blocks.map (fun b => ⟨sessionId, .agentMessageChunk (.text (echoBlockText b))⟩),
   ⟨"end_turn"⟩)

/-! ### gen_schema.py: the meta module generator and the rename map -/

/-- A fetched `meta.json` document as `main` reads it
(`src/scripts/gen_schema.py`, lines 75-78): optional `agentMethods` and
`clientMethods` tables (method name to schema info of type `α`) and an
optional integer `version` field (the meta file carries an integer version;
`int(...)` is the identity on it). -/
structure MetaDoc (α : Type) where
  agentMethods : Option (List (String × α)) := none
  clientMethods : Option (List (String × α)) := none
  version : Option Int := none

/-- The constants of the generated `meta.py` module.  The generator writes
each table with `repr`, which round-trips a JSON-derived dict, so the module
constant equals the table it was written from. -/
structure MetaModule (α : Type) where
  AGENT_METHODS : List (String × α)
  CLIENT_METHODS : List (String × α)
  PROTOCOL_VERSION : Int

/-- `main` of `src/scripts/gen_schema.py`, lines 73-85: tables default to the
empty mapping when absent, the version defaults to `1` when absent. -/
def genMetaModule {α : Type} (doc : MetaDoc α) : MetaModule α :=
  { AGENT_METHODS := doc.agentMethods.getD []
    CLIENT_METHODS := doc.clientMethods.getD []
    PROTOCOL_VERSION := doc.version.getD 1 }

/-- The `rename_map` of `_rename_numbered_classes`
(`src/scripts/gen_schema.py`, lines 104-133), in source order. -/
def renameMap : List (String × String) :=
  [("SessionUpdate1", "UserMessageChunk"),
   ("SessionUpdate2", "AgentMessageChunk"),
   ("SessionUpdate3", "AgentThoughtChunk"),
   ("SessionUpdate4", "ToolCallStart"),
   ("SessionUpdate5", "ToolCallProgress"),
   ("SessionUpdate6", "AgentPlan"),
   ("SessionUpdate7", "AvailableCommandsUpdate"),
   ("SessionUpdate8", "CurrentModeUpdate"),
   ("ContentBlock1", "TextContentBlock"),
   ("ContentBlock2", "ImageContentBlock"),
   ("ContentBlock3", "AudioContentBlock"),
   ("ContentBlock4", "ResourceContentBlock"),
   ("ContentBlock5", "EmbeddedResourceContentBlock"),
   ("ToolCallContent1", "ContentToolCallContent"),
   ("ToolCallContent2", "FileEditToolCallContent"),
   ("ToolCallContent3", "TerminalToolCallContent"),
   ("RequestPermissionOutcome1", "DeniedOutcome"),
   ("RequestPermissionOutcome2", "AllowedOutcome"),
   ("McpServer1", "HttpMcpServer"),
   ("McpServer2", "SseMcpServer"),
   ("McpServer3", "StdioMcpServer"),
   ("AvailableCommandInput1", "CommandInputHint")]

/-! ### MiniSweACPAgent (src/examples/mini_swe_agent/agent.py) -/

/-- `RequestPermissionResponse.outcome`: the tagged permission-outcome union
(`DeniedOutcome` or `AllowedOutcome` with an `option_id`). -/
inductive PermissionOutcome where
  | denied
  | allowed (optionId : String)
deriving DecidableEq

/-- Extra agent configuration (`ACPAgentConfig` dataclass). -/
structure ACPAgentConfig where
  mode : String := "confirm"
  whitelistActions : List String := []
  confirmExit : Bool := true
deriving DecidableEq

/-- Truthiness of Python `command.strip()`: true when the command has a
character that is not whitespace. -/
def pyStripTruthy (s : String) : Bool :=
  ¬ s.toList.all Char.isWhitespace

/-- `_confirm_action_sync`, lines 208-239: the scheduled
`requestPermission` call's result.  `none` models an exception while
obtaining the response (`fut.result()` raising), which returns `False`;
otherwise the command is allowed exactly when the outcome is an
`AllowedOutcome` whose `option_id` is `"allow-once"` or `"allow-always"`. -/
def confirmActionSync (resp : Option PermissionOutcome) : Bool :=
  match resp with
  | none => false
  | some .denied => false
  | some (.allowed oid) => oid = "allow-once" || oid = "allow-always"

/-- `on_tool_start`, lines 155-168: a `ToolCallStart` update with
kind `"execute"`, status `"pending"`, a fenced bash block, and the raw
command. -/
def onToolStart (toolCallId title command : String) : SessionUpdate :=
  .toolCallStart toolCallId title "execute" "pending"
    [ToolCallContent.content (.text ("```bash\n" ++ command ++ "\n```"))] command

/-- `on_tool_complete`, lines 170-187: a `ToolCallProgress` update with the
given status, a fenced ansi block, and raw output plus return code. -/
def onToolComplete (toolCallId output : String) (returncode : Int)
    (status : String) : SessionUpdate :=
  .toolCallProgress toolCallId status
    (some [ToolCallContent.content (.text ("```ansi\n" ++ output ++ "\n```"))])
    (some (output, returncode))

/-- Python `key in msg` substring containment. -/
def pyContains (msg key : String) : Bool :=
  (msg.splitOn key).length > 1

/-- The message fragments whose presence classifies a
`NonTerminatingException` as user-cancelled (lines 288-297). -/
def nonTermCancelKeys : List String :=
  ["Command not executed", "Switching to human mode",
   "switched to manual mode", "Interrupted by user"]

/-- The status chosen for a `NonTerminatingException` raised by the base
`execute_action`: `"cancelled"` when its message contains one of the known
cancellation fragments, else `"failed"`. -/
def nonTermStatus (msg : String) : String :=
  if nonTermCancelKeys.any (fun k => pyContains msg k) then "cancelled" else "failed"

/-- The tool-call id built at the top of `execute_action` (line 243):
`"mini-bash-" + str(tool_seq) + "-" + uuid4().hex[:8]`, where `tool_seq` has
already been incremented. -/
def mkToolId (toolSeq : Nat) (uuidHex : String) : String :=
  "mini-bash-" ++ Nat.repr toolSeq ++ "-" ++ uuidHex

/-- What `super().execute_action(action)` does when it is invoked: returns an
output and return code (after the `result.get` extractions of lines 272-273),
or raises `Submitted`, a `NonTerminatingException`, or some other
exception. -/
inductive ExecBehavior where
  | ok (output : String) (returncode : Int)
  | submitted (msg : String)
  | nonTerminating (msg : String)
  | otherExc (msg : String)
deriving DecidableEq

/-- How the overridden `execute_action` itself finishes: a normal return or a
re-raised exception. -/
inductive ActionResult where
  | returned (output : String) (returncode : Int)
  | raisedSubmitted (msg : String)
  | raisedNonTerminating (msg : String)
  | raisedOther (msg : String)
deriving DecidableEq

/-- The observable outcome of one `execute_action` invocation: the updates it
schedules for the loop (in schedule order), how it finishes, and whether the
base `execute_action` (the actual command execution) was invoked. -/
structure ExecOutcome where
  updates : List SessionUpdate
  result : ActionResult
  baseExecuted : Bool
deriving DecidableEq

/-- The `try` block of `execute_action` (lines 267-316): an in-progress
update, then the base execution, then a terminal update chosen by how the
base finished. -/
def executeActionRun (toolId : String) (startUpd : SessionUpdate)
    (base : ExecBehavior) : ExecOutcome :=
  let inProgress : SessionUpdate := .toolCallProgress toolId "in_progress" none none
  match base with
  | .ok output rc =>
    { updates := [startUpd, inProgress, onToolComplete toolId output rc "completed"]
      result := .returned output rc
      baseExecuted := true }
  | .submitted msg =>
    { updates := [startUpd, inProgress, onToolComplete toolId msg 0 "completed"]
      result := .raisedSubmitted msg
      baseExecuted := true }
  | .nonTerminating msg =>
    let st := nonTermStatus msg
    { updates := [startUpd, inProgress,
        onToolComplete toolId msg (if st ≠ "cancelled" then 124 else 0) st]
      result := .raisedNonTerminating msg
      baseExecuted := true }
  | .otherExc msg =>
    let m := if msg = "" then "execution failed" else msg
    { updates := [startUpd, inProgress, onToolComplete toolId m 124 "failed"]
      result := .raisedOther m
      baseExecuted := true }

/-- `execute_action`, lines 241-316.  `seq` is the `_tool_seq` counter before
the call, `uuidHex` the eight-character uuid suffix drawn for this call,
`reMatch r c` the truthiness of `re.match(r, c)`, `permResp` the client's
permission response (`none` for a failure obtaining it), and `base` what the
underlying command execution would do.  Returns the new counter and the
observable outcome. -/
def executeAction (seq : Nat) (uuidHex : String) (whitelistActions : List String)
    (reMatch : String → String → Bool) (permResp : Option PermissionOutcome)
    (base : ExecBehavior) (command : String) : Nat × ExecOutcome :=
  let seq1 := seq + 1
  let toolId := mkToolId seq1 uuidHex
  let startUpd := onToolStart toolId "bash" command
  if pyStripTruthy command && !(whitelistActions.any fun r => reMatch r command) then
    if confirmActionSync permResp then
      (seq1, executeActionRun toolId startUpd base)
    else
      (seq1,
       { updates := [startUpd, onToolComplete toolId "Permission denied by user" 0 "cancelled"]
         result := .raisedNonTerminating "Command not executed: denied by user"
         baseExecuted := false })
  else
    (seq1, executeActionRun toolId startUpd base)

/-- One session-table entry of `MiniSweACPAgent._sessions`: the stored agent
is reduced to whether one has been created. -/
structure SessionEntry where
  cwd : String
  agentLoaded : Bool := false
  task : Option String := none
  config : ACPAgentConfig := {}
deriving DecidableEq

/-- `MiniSweACPAgent.loadSession`, lines 362-384: when the session id is
unknown a fresh entry is inserted (with the configuration derived from the
environment, passed here as `cfgFromEnv` since reading it is I/O); when the
id is already present nothing happens. -/
def loadSession (sessions : List (String × SessionEntry))
    (sessionId cwd : String) (cfgFromEnv : ACPAgentConfig) :
    List (String × SessionEntry) :=
  if (sessions.lookup sessionId).isSome then sessions
  else sessions ++ [(sessionId,
    { cwd := cwd, agentLoaded := false, task := none, config := cfgFromEnv })]

/-- Python `str.strip()` (whitespace trimming), used by the task builder. -/
def pyStrip (s : String) : String := s.trim

/-- The task text `MiniSweACPAgent.prompt` builds from the prompt blocks
(lines 476-483): text attributes of text blocks that are non-empty and whose
stripped form does not start with `[[MODE:`, joined with newlines, stripped,
defaulting to a fixed help request.  A raw dict block has no `type`
attribute, so `getattr(block, "type", None)` skips it. -/
def buildTask (blocks : List PromptBlock) : String :=
  let parts := blocks.filterMap fun b =>
    match b with
    | .modelBlock (some t) =>
      if t ≠ "" && ¬ (pyStrip t).startsWith "[[MODE:" then some t else none
    | _ => none
  let task := pyStrip (String.intercalate "\n" parts)
  if task = "" then "Help me with the current repository." else task

/-- An exception escaping the model query / action execution step of
`MiniSweACPAgent.prompt` (the `try` body of lines 498-525), matching the
`except` clauses of lines 526-556. -/
inductive StepExc where
  | nonTerminating (msg : String)
  | submitted (msg : String)
  | limitsExceeded (msg : String)
  | otherExc (msg : String)
deriving DecidableEq

/-- Everything observable about one `MiniSweACPAgent.prompt` call: the session
table afterwards, the notifications the handler itself sent (in order), the
messages it appended to the conversation, and its return value. -/
structure MiniPromptOut where
  sessions : List (String × SessionEntry)
  notifs : List SessionNotif
  addedMessages : List (String × String)
  response : PromptResponse
deriving DecidableEq

/-- Python dict assignment `d[k] = v`: replace in place when present, append
when absent. -/
def setEntry (sessions : List (String × SessionEntry)) (sid : String)
    (e : SessionEntry) : List (String × SessionEntry) :=
  if (sessions.lookup sid).isSome then
    sessions.map fun p => if p.1 = sid then (sid, e) else p
  else sessions ++ [(sid, e)]

/-- The `except` clauses of `MiniSweACPAgent.prompt` (lines 526-556) applied
to the result of the `try` body: `none` models normal completion, a
`StepExc` the exception the step raised.  Every case falls through to
`PromptResponse(stop_reason="end_turn")` (line 558). -/
def handleStep (sessions : List (String × SessionEntry)) (sessionId : String)
    (sess : SessionEntry) (msgs : List (String × String))
    (stepResult : Option StepExc) : Except String MiniPromptOut :=
  match stepResult with
  | none =>
    .ok { sessions := sessions, notifs := [], addedMessages := msgs
          response := ⟨"end_turn"⟩ }
  | some (.nonTerminating m) =>
    .ok { sessions := sessions, notifs := []
          addedMessages := msgs ++ [("user", m)], response := ⟨"end_turn"⟩ }
  | some (.submitted m) =>
    match sess.config.confirmExit with
    | true =>
      .ok { sessions := setEntry sessions sessionId { sess with task := none }
            notifs := [⟨sessionId, .agentMessageChunk (.text
              ("Agent finished. Type a new task in the next message to " ++
               " continue, or do nothing to end."))⟩]
            addedMessages := msgs ++ [("user", m)], response := ⟨"end_turn"⟩ }
    | false =>
      .ok { sessions := sessions, notifs := []
            addedMessages := msgs ++ [("user", m)], response := ⟨"end_turn"⟩ }
  | some (.limitsExceeded m) =>
    .ok { sessions := sessions, notifs := []
          addedMessages := msgs ++ [("user", "Limits exceeded: " ++ m)]
          response := ⟨"end_turn"⟩ }
  | some (.otherExc m) =>
    .ok { sessions := sessions
          notifs := [⟨sessionId, .agentMessageChunk (.text
            ("Error while processing: " ++ m))⟩]
          addedMessages := msgs, response := ⟨"end_turn"⟩ }

/-- The part of `MiniSweACPAgent.prompt` after the agent is available
(lines 474-558): seed the task on first use, then either ask for a command
(human mode without one), fabricate the assistant message (human mode with
one), or run the model step, and handle every step exception. -/
def miniPromptAfterInit (sessions : List (String × SessionEntry))
    (sessionId : String) (sess : SessionEntry) (blocks : List PromptBlock)
    (extractedCmd : Option String) (stepResult : Option StepExc) :
    Except String MiniPromptOut :=
  let seeded :=
    match sess.task with
    | some _ => (sess, sessions)
    | none =>
      let s := { sess with task := some (buildTask blocks) }
      (s, setEntry sessions sessionId s)
  let sess1 := seeded.1
  let sessions1 := seeded.2
  if sess1.config.mode = "human" then
    match extractedCmd with
    | none =>
      .ok { sessions := sessions1
            notifs := [⟨sessionId, .agentMessageChunk (.text
              "Human mode: please submit a bash command.")⟩]
            addedMessages := [], response := ⟨"end_turn"⟩ }
    | some cmd =>
      handleStep sessions1 sessionId sess1
        [("assistant", "\n```bash\n" ++ cmd ++ "\n```")] stepResult
  else
    handleStep sessions1 sessionId sess1 [] stepResult

/-- `MiniSweACPAgent.prompt`, lines 420-558.  `defaultCwd` is
`Path.cwd()`, `agentCreation` the error message from
`_create_streaming_mini_agent` when creation fails (`none` for success; only
consulted when no agent is stored yet), `extractedCmd` the result of the
regex search of `_extract_code_from_blocks`, and `stepResult` how the model
query / action execution step finishes.  The `Except.error` constructor
models an exception propagating out of the handler; the notifications the
external mini agent streams internally (assistant chunks, cost hints) are
outside `src/` and not tracked. -/
def miniPrompt (sessions : List (String × SessionEntry)) (sessionId : String)
    (defaultCwd : String) (blocks : List PromptBlock)
    (agentCreation : Option String) (extractedCmd : Option String)
    (stepResult : Option StepExc) : Except String MiniPromptOut :=
  let entered :=
    match sessions.lookup sessionId with
    | some e => (sessions, e)
    | none =>
      let e : SessionEntry := { cwd := defaultCwd }
      (sessions ++ [(sessionId, e)], e)
  let sessions1 := entered.1
  let sess := entered.2
  if sess.agentLoaded then
    miniPromptAfterInit sessions1 sessionId sess blocks extractedCmd stepResult
  else
    match agentCreation with
    | some err =>
      .ok { sessions := sessions1
            notifs := [⟨sessionId, .agentMessageChunk (.text
              ("mini-swe-agent load error: " ++ err))⟩]
            addedMessages := [], response := ⟨"end_turn"⟩ }
    | none =>
      let sess1 := { sess with agentLoaded := true }
      miniPromptAfterInit (setEntry sessions1 sessionId sess1) sessionId sess1
        blocks extractedCmd stepResult

/-! ### Decimal representation facts (for session and tool-call id freshness) -/

/-- The character list of `Nat.repr n`: `'0'` for zero, otherwise the decimal
digits of `n`, most significant first. -/
def reprChars (n : Nat) : List Char :=
  if n = 0 then ['0'] else ((Nat.digits 10 n).map Nat.digitChar).reverse

theorem toDigitsCore_eq_digits (f : Nat) :
    ∀ (n : Nat) (acc : List Char), 0 < n → n ≤ f →
      Nat.toDigitsCore 10 f n acc =
        ((Nat.digits 10 n).map Nat.digitChar).reverse ++ acc := by
  induction f with
  | zero => intro n acc hn hf; omega
  | succ f ih =>
    intro n acc hn hf
    rw [Nat.toDigitsCore]
    by_cases h10 : n / 10 = 0
    · have hlt : n < 10 := by omega
      have hd : Nat.digits 10 n = [n] := by
        rw [Nat.digits_def' (by norm_num : 1 < 10) hn, h10, Nat.digits_zero,
          Nat.mod_eq_of_lt hlt]
      simp [h10, hd, Nat.mod_eq_of_lt hlt]
    · have hpos : 0 < n / 10 := Nat.pos_of_ne_zero h10
      have hle : n / 10 ≤ f := by
        have := Nat.div_lt_self hn (by norm_num : 1 < 10)
        omega
      have hd : Nat.digits 10 n = n % 10 :: Nat.digits 10 (n / 10) :=
        Nat.digits_def' (by norm_num : 1 < 10) hn
      simp only [h10, if_neg (by exact h10)]
      rw [ih (n / 10) (Nat.digitChar (n % 10) :: acc) hpos hle, hd]
      simp

theorem repr_eq_reprChars (n : Nat) : Nat.repr n = (reprChars n).asString := by
  cases n with
  | zero => rfl
  | succ k =>
    have h : Nat.toDigitsCore 10 (k + 2) (k + 1) [] =
        ((Nat.digits 10 (k + 1)).map Nat.digitChar).reverse ++ [] :=
      toDigitsCore_eq_digits (k + 2) (k + 1) [] (Nat.succ_pos k) (by omega)
    simp only [List.append_nil] at h
    simp [Nat.repr, Nat.toDigits, h, reprChars]

theorem digitChar_inj_lt :
    ∀ a < 10, ∀ b < 10, Nat.digitChar a = Nat.digitChar b → a = b := by decide

theorem map_digitChar_inj :
    ∀ (l1 l2 : List Nat), (∀ d ∈ l1, d < 10) → (∀ d ∈ l2, d < 10) →
      l1.map Nat.digitChar = l2.map Nat.digitChar → l1 = l2 := by
  intro l1
  induction l1 with
  | nil => intro l2 _ _ h; cases l2 <;> simp_all
  | cons a t ih =>
    intro l2 h1 h2 h
    cases l2 with
    | nil => simp_all
    | cons b t2 =>
      simp only [List.map_cons, List.cons.injEq] at h
      have ha : a < 10 := h1 a (List.mem_cons_self a t)
      have hb : b < 10 := h2 b (List.mem_cons_self b t2)
      have : a = b := digitChar_inj_lt a ha b hb h.1
      subst this
      have := ih t2 (fun d hd => h1 d (List.mem_cons_of_mem a hd))
        (fun d hd => h2 d (List.mem_cons_of_mem a hd)) h.2
      simp [this]

theorem digitChar_eq_zero_char : ∀ d < 10, Nat.digitChar d = '0' → d = 0 := by
  decide

theorem reprChars_singleton_zero {n : Nat} (hn : n ≠ 0)
    (h : ((Nat.digits 10 n).map Nat.digitChar).reverse = ['0']) : False := by
  have h' : (Nat.digits 10 n).map Nat.digitChar = ['0'] := by
    have := List.reverse_eq_iff.mp h
    simpa using this
  obtain ⟨d, rest, hd⟩ : ∃ d rest, Nat.digits 10 n = d :: rest := by
    cases hdig : Nat.digits 10 n with
    | nil => exact absurd hdig (Nat.digits_ne_nil_iff_ne_zero.mpr hn)
    | cons d rest => exact ⟨d, rest, rfl⟩
  rw [hd] at h'
  simp only [List.map_cons, List.cons.injEq, List.map_eq_nil_iff] at h'
  have hdlt : d < 10 :=
    Nat.digits_lt_base (by norm_num) (hd ▸ List.mem_cons_self d rest)
  have hd0 : d = 0 := digitChar_eq_zero_char d hdlt h'.1
  have hdig0 : Nat.digits 10 n = [0] := by rw [hd, h'.2, hd0]
  have := congrArg (Nat.ofDigits 10) hdig0
  rw [Nat.ofDigits_digits] at this
  simp [Nat.ofDigits] at this
  exact hn this

theorem reprChars_inj {a b : Nat} (h : reprChars a = reprChars b) : a = b := by
  by_cases ha : a = 0 <;> by_cases hb : b = 0
  · omega
  · exfalso
    rw [reprChars, reprChars, if_pos ha, if_neg hb] at h
    exact reprChars_singleton_zero hb h.symm
  · exfalso
    rw [reprChars, reprChars, if_neg ha, if_pos hb] at h
    exact reprChars_singleton_zero ha h
  · rw [reprChars, reprChars, if_neg ha, if_neg hb] at h
    have hmap : (Nat.digits 10 a).map Nat.digitChar =
        (Nat.digits 10 b).map Nat.digitChar := by
      have := congrArg List.reverse h
      simpa using this
    have hdig : Nat.digits 10 a = Nat.digits 10 b :=
      map_digitChar_inj _ _
        (fun d hd => Nat.digits_lt_base (by norm_num) hd)
        (fun d hd => Nat.digits_lt_base (by norm_num) hd) hmap
    have := congrArg (Nat.ofDigits 10) hdig
    rwa [Nat.ofDigits_digits, Nat.ofDigits_digits] at this

theorem natRepr_inj {a b : Nat} (h : Nat.repr a = Nat.repr b) : a = b := by
  rw [repr_eq_reprChars, repr_eq_reprChars] at h
  exact reprChars_inj (List.asString_inj.mp h)

theorem repr_data_ne_dash (n : Nat) :
    ∀ c ∈ (Nat.repr n).data, (c != '-') = true := by
  rw [repr_eq_reprChars]
  show ∀ c ∈ reprChars n, (c != '-') = true
  intro c hc
  rw [reprChars] at hc
  by_cases hn : n = 0
  · rw [if_pos hn] at hc
    simp only [List.mem_singleton] at hc
    subst hc; decide
  · rw [if_neg hn] at hc
    rw [List.mem_reverse] at hc
    obtain ⟨d, hd, hdc⟩ := List.mem_map.mp hc
    have hdlt : d < 10 := Nat.digits_lt_base (by norm_num) hd
    have hall : ∀ d < 10, (Nat.digitChar d != '-') = true := by decide
    rw [← hdc]
    exact hall d hdlt

theorem takeWhile_append_not {p : Char → Bool} :
    ∀ (xs : List Char) (y : Char) (ys : List Char),
      (∀ c ∈ xs, p c = true) → p y = false →
      (xs ++ y :: ys).takeWhile p = xs := by
  intro xs
  induction xs with
  | nil =>
    intro y ys _ hy
    simp [List.takeWhile_cons, hy]
  | cons c cs ih =>
    intro y ys hx hy
    have hc : p c = true := hx c (List.mem_cons_self c cs)
    simp only [List.cons_append, List.takeWhile_cons, hc, if_true]
    rw [ih y ys (fun d hd => hx d (List.mem_cons_of_mem c hd)) hy]

/-- Tool-call ids built from different counter values differ, whatever the
uuid suffixes are: the decimal counter block before the first following dash
determines the counter. -/
theorem mkToolId_inj {a b : Nat} {u v : String}
    (h : mkToolId a u = mkToolId b v) : a = b := by
  unfold mkToolId at h
  have hd := congrArg String.data h
  simp only [String.data_append, List.append_assoc] at hd
  simp only [List.singleton_append] at hd
  have h2 := List.append_cancel_left hd
  have h3 := congrArg (List.takeWhile fun c => c != '-') h2
  rw [takeWhile_append_not (Nat.repr a).data '-' u.data (repr_data_ne_dash a)
      (by decide),
    takeWhile_append_not (Nat.repr b).data '-' v.data (repr_data_ne_dash b)
      (by decide)] at h3
  exact natRepr_inj (String.ext h3)

/-- Session ids built from different counter values differ. -/
theorem sessId_inj {m n : Nat}
    (h : "sess-" ++ Nat.repr m = "sess-" ++ Nat.repr n) : m = n := by
  have hd := congrArg String.data h
  simp only [String.data_append] at hd
  exact natRepr_inj (String.ext (List.append_cancel_left hd))

/-- The id returned by the `k`-th of `n` `newSession` calls from counter
state `st`. -/
theorem runNewSessions_get (n : Nat) :
    ∀ (st k : Nat), k < n →
      (runNewSessions n st).get? k = some ("sess-" ++ Nat.repr (st + k)) := by
  induction n with
  | zero => intro st k hk; omega
  | succ n ih =>
    intro st k hk
    cases k with
    | zero => simp [runNewSessions, newSessionStep]
    | succ k =>
      have : k < n := by omega
      simp only [runNewSessions, newSessionStep, List.get?_cons_succ]
      rw [ih (st + 1) k this]
      have : st + 1 + k = st + (k + 1) := by omega
      rw [this]

/-! ### Claim theorems -/

/-- C1 counterexample: on the session/prompt request whose prompt list is the
single text block with type `"text"` and text `"hi"`, `ExampleAgent.prompt`
emits two session/update notifications (the prefix chunk plus one echo
chunk), not three. -/
theorem examplePrompt_hi_not_three :
    (examplePrompt "sess-0" [PromptBlock.dictBlock (some "text") (some "hi")]).1.length = 2 ∧
    ¬ (examplePrompt "sess-0" [PromptBlock.dictBlock (some "text") (some "hi")]).1.length = 3 := by
  decide

/-- C1 (amended): on that request `ExampleAgent.prompt` emits exactly two
session/update notifications, both of kind agent_message_chunk — the prefix
`"Client sent: "` and then the echo `"hi"` — in that send order, and then
returns `PromptResponse(stop_reason="end_turn")`. -/
theorem examplePrompt_hi_two_chunks :
    examplePrompt "sess-0" [PromptBlock.dictBlock (some "text") (some "hi")] =
      ([⟨"sess-0", .agentMessageChunk (.text "Client sent: ")⟩,
        ⟨"sess-0", .agentMessageChunk (.text "hi")⟩],
       ⟨"end_turn"⟩) := by
  rfl

/-- C3: for every `InitializeRequest` (whatever its protocol version and
client capabilities), `ExampleAgent.initialize` returns
`InitializeResponse(protocol_version=1, agent_capabilities=None,
auth_methods=[])`. -/
theorem exampleInitialize_fixed (params : InitializeRequest) :
    exampleInitialize params =
      { protocolVersion := 1, agentCapabilities := none, authMethods := [] } := by
  rfl

/-- C4 counterexample: `ExampleAgent.initialize` does not echo the request's
protocol version — on a request carrying protocol version `2` it answers
`1`. -/
theorem exampleInitialize_no_echo :
    (exampleInitialize { protocolVersion := 2 }).protocolVersion = 1 ∧
    ¬ (exampleInitialize { protocolVersion := 2 }).protocolVersion = 2 := by
  decide

/-- C4 (amended): `EchoAgent.initialize` echoes the protocol version carried
in the request, while `ExampleAgent.initialize` always answers the constant
`PROTOCOL_VERSION`, so it agrees with the request only when the request
carries `PROTOCOL_VERSION` itself. -/
theorem initialize_version_behaviour :
    (∀ p : InitializeRequest, (echoInitialize p).protocolVersion = p.protocolVersion) ∧
    (∀ p : InitializeRequest, (exampleInitialize p).protocolVersion = PROTOCOL_VERSION) :=
  ⟨fun _ => rfl, fun _ => rfl⟩

/-- C5: the generated meta module's `AGENT_METHODS` and `CLIENT_METHODS`
equal the document's `agentMethods` and `clientMethods` tables (the empty
mapping when a table is absent), and `PROTOCOL_VERSION` equals the
document's `version` field, defaulting to `1` when the field is absent. -/
theorem genMetaModule_faithful {α : Type} (doc : MetaDoc α) :
    ((∀ t, doc.agentMethods = some t → (genMetaModule doc).AGENT_METHODS = t) ∧
     (doc.agentMethods = none → (genMetaModule doc).AGENT_METHODS = [])) ∧
    ((∀ t, doc.clientMethods = some t → (genMetaModule doc).CLIENT_METHODS = t) ∧
     (doc.clientMethods = none → (genMetaModule doc).CLIENT_METHODS = [])) ∧
    ((∀ v, doc.version = some v → (genMetaModule doc).PROTOCOL_VERSION = v) ∧
     (doc.version = none → (genMetaModule doc).PROTOCOL_VERSION = 1)) := by
  refine ⟨⟨?_, ?_⟩, ⟨?_, ?_⟩, ⟨?_, ?_⟩⟩
  · intro t h; simp [genMetaModule, h]
  · intro h; simp [genMetaModule, h]
  · intro t h; simp [genMetaModule, h]
  · intro h; simp [genMetaModule, h]
  · intro v h; simp [genMetaModule, h]
  · intro h; simp [genMetaModule, h]

/-- C5 witness: a concrete meta document with an agent table, no client
table, and version 3. -/
theorem genMetaModule_faithful_witness :
    (genMetaModule ({ agentMethods := some [("initialize", 7)],
                      clientMethods := none, version := some 3 } : MetaDoc Nat)).AGENT_METHODS =
      [("initialize", 7)] ∧
    (genMetaModule ({ agentMethods := some [("initialize", 7)],
                      clientMethods := none, version := some 3 } : MetaDoc Nat)).CLIENT_METHODS = [] ∧
    (genMetaModule ({ agentMethods := some [("initialize", 7)],
                      clientMethods := none, version := some 3 } : MetaDoc Nat)).PROTOCOL_VERSION = 3 :=
  ⟨(genMetaModule_faithful _).1.1 _ rfl,
   (genMetaModule_faithful _).2.1.2 rfl,
   (genMetaModule_faithful _).2.2.1 _ rfl⟩

/-- C6: the rename map's `SessionUpdate`-numbered entries are exactly
`SessionUpdate1..SessionUpdate8` in order, renamed to the
user-message-chunk, agent-message-chunk, agent-thought-chunk, tool-call
start, tool-call progress, plan, available-commands-update and
current-mode-update classes, and its `ContentBlock`-numbered entries are
exactly `ContentBlock1..ContentBlock5` renamed to the text, image, audio,
resource and embedded-resource block classes. -/
theorem renameMap_variant_tables :
    renameMap.filter (fun p => "SessionUpdate".toList.isPrefixOf p.1.toList) =
      [("SessionUpdate1", "UserMessageChunk"),
       ("SessionUpdate2", "AgentMessageChunk"),
       ("SessionUpdate3", "AgentThoughtChunk"),
       ("SessionUpdate4", "ToolCallStart"),
       ("SessionUpdate5", "ToolCallProgress"),
       ("SessionUpdate6", "AgentPlan"),
       ("SessionUpdate7", "AvailableCommandsUpdate"),
       ("SessionUpdate8", "CurrentModeUpdate")] ∧
    renameMap.filter (fun p => "ContentBlock".toList.isPrefixOf p.1.toList) =
      [("ContentBlock1", "TextContentBlock"),
       ("ContentBlock2", "ImageContentBlock"),
       ("ContentBlock3", "AudioContentBlock"),
       ("ContentBlock4", "ResourceContentBlock"),
       ("ContentBlock5", "EmbeddedResourceContentBlock")] := by
  decide

/-- C8: starting from a fresh `ExampleAgent` (counter 0), among `n`
successive `newSession` calls the `(k+1)`-th call returns
`"sess-" ++ k`, and any two distinct calls return distinct session ids. -/
theorem newSession_distinct_ids (n k j : Nat) (hk : k < n) (hj : j < n)
    (hne : j ≠ k) :
    (runNewSessions n 0).get? k = some ("sess-" ++ Nat.repr k) ∧
    (runNewSessions n 0).get? j ≠ (runNewSessions n 0).get? k := by
  constructor
  · have h := runNewSessions_get n 0 k hk
    simpa using h
  · have h1 := runNewSessions_get n 0 k hk
    have h2 := runNewSessions_get n 0 j hj
    simp only [Nat.zero_add] at h1 h2
    rw [h1, h2]
    intro h
    exact hne (sessId_inj (Option.some.inj h))

/-- C8 witness: three calls, comparing the second and third ids. -/
theorem newSession_distinct_ids_witness :
    1 < 3 ∧ 2 < 3 ∧ (2 ≠ 1) ∧
    ((runNewSessions 3 0).get? 1 = some ("sess-" ++ Nat.repr 1) ∧
     (runNewSessions 3 0).get? 2 ≠ (runNewSessions 3 0).get? 1) :=
  ⟨by decide, by decide, by decide,
   newSession_distinct_ids 3 1 2 (by decide) (by decide) (by decide)⟩

/-- C10: a `loadSession` call whose session id is already a key of the
session table leaves the table unchanged: the existing entry keeps its
cwd, agent, task and config, and no entry is added. -/
theorem loadSession_existing_unchanged (sessions : List (String × SessionEntry))
    (sessionId cwd : String) (cfgFromEnv : ACPAgentConfig)
    (h : (sessions.lookup sessionId).isSome = true) :
    loadSession sessions sessionId cwd cfgFromEnv = sessions := by
  unfold loadSession
  simp [h]

/-- C10 witness: a one-entry table whose key is loaded again with a different
cwd. -/
theorem loadSession_existing_unchanged_witness :
    (([("sess-a", ({ cwd := "/w" } : SessionEntry))].lookup "sess-a").isSome = true) ∧
    loadSession [("sess-a", { cwd := "/w" })] "sess-a" "/elsewhere" {} =
      [("sess-a", { cwd := "/w" })] :=
  ⟨by decide, loadSession_existing_unchanged _ _ _ _ (by decide)⟩

/-- The status of a `NonTerminatingException` terminal update is cancelled or
failed. -/
theorem nonTermStatus_cases (msg : String) :
    nonTermStatus msg = "cancelled" ∨ nonTermStatus msg = "failed" := by
  unfold nonTermStatus
  split
  · exact Or.inl rfl
  · exact Or.inr rfl

/-- The `try` block always schedules the start update, the in-progress
update, and one terminal update with a completed, failed or cancelled
status, and always invokes the base execution. -/
theorem executeActionRun_updates (toolId : String) (startUpd : SessionUpdate)
    (base : ExecBehavior) :
    ∃ st content rawOut,
      (executeActionRun toolId startUpd base).updates =
        [startUpd, .toolCallProgress toolId "in_progress" none none,
         .toolCallProgress toolId st content rawOut] ∧
      (st = "completed" ∨ st = "failed" ∨ st = "cancelled") ∧
      (executeActionRun toolId startUpd base).baseExecuted = true := by
  cases base with
  | ok out rc => exact ⟨"completed", _, _, rfl, Or.inl rfl, rfl⟩
  | submitted m => exact ⟨"completed", _, _, rfl, Or.inl rfl, rfl⟩
  | nonTerminating m =>
    refine ⟨nonTermStatus m, _, _, rfl, ?_, rfl⟩
    rcases nonTermStatus_cases m with h | h
    · exact Or.inr (Or.inr h)
    · exact Or.inr (Or.inl h)
  | otherExc m => exact ⟨"failed", _, _, rfl, Or.inr (Or.inl rfl), rfl⟩

/-- `execute_action` increments the counter and either runs the `try` block
or stops at the permission gate with a cancelled update. -/
theorem executeAction_shape (seq : Nat) (uuidHex : String) (wl : List String)
    (reMatch : String → String → Bool) (permResp : Option PermissionOutcome)
    (base : ExecBehavior) (command : String) :
    (executeAction seq uuidHex wl reMatch permResp base command).1 = seq + 1 ∧
    ((executeAction seq uuidHex wl reMatch permResp base command).2 =
        executeActionRun (mkToolId (seq + 1) uuidHex)
          (onToolStart (mkToolId (seq + 1) uuidHex) "bash" command) base ∨
      (executeAction seq uuidHex wl reMatch permResp base command).2 =
        { updates := [onToolStart (mkToolId (seq + 1) uuidHex) "bash" command,
            onToolComplete (mkToolId (seq + 1) uuidHex) "Permission denied by user" 0
              "cancelled"]
          result := .raisedNonTerminating "Command not executed: denied by user"
          baseExecuted := false }) := by
  simp only [executeAction]
  split
  · split
    · exact ⟨rfl, Or.inl rfl⟩
    · exact ⟨rfl, Or.inr rfl⟩
  · exact ⟨rfl, Or.inl rfl⟩

/-- C7: every `execute_action` invocation bumps the tool counter, schedules a
`ToolCallStart` for the new tool-call id as its first update, addresses every
update of the invocation to that id, schedules as its last update a
`ToolCallProgress` whose status is completed, failed or cancelled, and the id
differs from the id of every invocation made at a different counter value
(whatever uuid suffixes were drawn). -/
theorem executeAction_tool_lifecycle (seq : Nat) (uuidHex : String)
    (wl : List String) (reMatch : String → String → Bool)
    (permResp : Option PermissionOutcome) (base : ExecBehavior)
    (command : String) :
    (executeAction seq uuidHex wl reMatch permResp base command).1 = seq + 1 ∧
    (executeAction seq uuidHex wl reMatch permResp base command).2.updates.head? =
      some (onToolStart (mkToolId (seq + 1) uuidHex) "bash" command) ∧
    (∀ u ∈ (executeAction seq uuidHex wl reMatch permResp base command).2.updates,
        u.toolId = some (mkToolId (seq + 1) uuidHex)) ∧
    (∃ st content rawOut,
        (executeAction seq uuidHex wl reMatch permResp base command).2.updates.getLast? =
          some (.toolCallProgress (mkToolId (seq + 1) uuidHex) st content rawOut) ∧
        (st = "completed" ∨ st = "failed" ∨ st = "cancelled")) ∧
    (∀ seq2 uuid2, seq2 ≠ seq →
        mkToolId (seq2 + 1) uuid2 ≠ mkToolId (seq + 1) uuidHex) := by
  obtain ⟨h1, h2⟩ :=
    executeAction_shape seq uuidHex wl reMatch permResp base command
  have hfresh : ∀ seq2 uuid2, seq2 ≠ seq →
      mkToolId (seq2 + 1) uuid2 ≠ mkToolId (seq + 1) uuidHex := by
    intro seq2 uuid2 hne heq
    have := mkToolId_inj heq
    omega
  rcases h2 with h | h
  · obtain ⟨st, content, rawOut, hupd, hst, _⟩ :=
      executeActionRun_updates (mkToolId (seq + 1) uuidHex)
        (onToolStart (mkToolId (seq + 1) uuidHex) "bash" command) base
    rw [h, hupd]
    refine ⟨h1, rfl, ?_, ⟨st, content, rawOut, rfl, hst⟩, hfresh⟩
    intro u hu
    simp only [List.mem_cons, List.mem_singleton] at hu
    rcases hu with rfl | rfl | rfl | hu
    · rfl
    · rfl
    · rfl
    · cases hu
  · rw [h]
    refine ⟨h1, rfl, ?_, ⟨"cancelled", _, _, rfl, Or.inr (Or.inr rfl)⟩, hfresh⟩
    intro u hu
    simp only [List.mem_cons, List.mem_singleton] at hu
    rcases hu with rfl | rfl | hu
    · rfl
    · rfl
    · cases hu

/-- C2 counterexample: the command `""` matches no whitelist pattern (the
whitelist is empty), the client's outcome is denied, yet `execute_action`
still invokes the base execution and emits no cancelled update — the
permission gate is skipped entirely because the stripped command is empty. -/
theorem executeAction_blank_command_runs :
    ((executeAction 0 "0123abcd" [] (fun _ _ => false)
        (some PermissionOutcome.denied) (ExecBehavior.ok "done" 0) "").2.baseExecuted
      = true) ∧
    confirmActionSync (some PermissionOutcome.denied) = false ∧
    (∀ u ∈ (executeAction 0 "0123abcd" [] (fun _ _ => false)
        (some PermissionOutcome.denied) (ExecBehavior.ok "done" 0) "").2.updates,
      ¬ u.statusField = some "cancelled") := by
  decide

/-- C2 (amended): a command whose stripped form is non-empty and that matches
no whitelist pattern is executed only when the permission outcome is an
`AllowedOutcome` whose option id is `"allow-once"` or `"allow-always"`; for
every other outcome (denied, another option id, or a failure obtaining the
response) the base execution is not invoked and the tool call ends with a
`tool_call_update` of status `"cancelled"`. -/
theorem executeAction_permission_gate (seq : Nat) (uuidHex : String)
    (wl : List String) (reMatch : String → String → Bool)
    (permResp : Option PermissionOutcome) (base : ExecBehavior)
    (command : String)
    (hs : pyStripTruthy command = true)
    (hw : (wl.any fun r => reMatch r command) = false) :
    ((executeAction seq uuidHex wl reMatch permResp base command).2.baseExecuted = true →
      ∃ oid, permResp = some (PermissionOutcome.allowed oid) ∧
        (oid = "allow-once" ∨ oid = "allow-always")) ∧
    (confirmActionSync permResp = false →
      (executeAction seq uuidHex wl reMatch permResp base command).2.baseExecuted = false ∧
      (executeAction seq uuidHex wl reMatch permResp base command).2.updates =
        [onToolStart (mkToolId (seq + 1) uuidHex) "bash" command,
         onToolComplete (mkToolId (seq + 1) uuidHex) "Permission denied by user" 0
           "cancelled"]) := by
  have hcond : (pyStripTruthy command &&
      !(wl.any fun r => reMatch r command)) = true := by
    rw [hs, hw]
    rfl
  by_cases hC : confirmActionSync permResp = true
  · constructor
    · intro _
      cases permResp with
      | none => simp [confirmActionSync] at hC
      | some out =>
        cases out with
        | denied => simp [confirmActionSync] at hC
        | allowed oid =>
          refine ⟨oid, rfl, ?_⟩
          simp only [confirmActionSync, Bool.or_eq_true, decide_eq_true_eq] at hC
          exact hC
    · intro hF
      rw [hC] at hF
      cases hF
  · have hCf : confirmActionSync permResp = false := by
      cases hcc : confirmActionSync permResp
      · rfl
      · exact absurd hcc hC
    constructor
    · intro hexec
      exfalso
      simp only [executeAction, hcond, if_true, hCf, Bool.false_eq_true,
        if_false] at hexec
    · intro _
      constructor
      · simp [executeAction, hcond, hCf]
      · simp [executeAction, hcond, hCf]

/-- C2 witness: a denied outcome for the non-blank, non-whitelisted command
`"ls"` leaves the base execution uninvoked and ends in a cancelled update. -/
theorem executeAction_permission_gate_witness :
    pyStripTruthy "ls" = true ∧
    (([] : List String).any fun r =>
      (fun _ _ => false : String → String → Bool) r "ls") = false ∧
    confirmActionSync (some PermissionOutcome.denied) = false ∧
    ((executeAction 0 "abcd1234" [] (fun _ _ => false)
        (some PermissionOutcome.denied) (ExecBehavior.ok "out" 0) "ls").2.baseExecuted
      = false ∧
     (executeAction 0 "abcd1234" [] (fun _ _ => false)
        (some PermissionOutcome.denied) (ExecBehavior.ok "out" 0) "ls").2.updates =
       [onToolStart (mkToolId 1 "abcd1234") "bash" "ls",
        onToolComplete (mkToolId 1 "abcd1234") "Permission denied by user" 0
          "cancelled"]) :=
  ⟨by decide, by decide, by decide,
   (executeAction_permission_gate 0 "abcd1234" [] (fun _ _ => false)
      (some PermissionOutcome.denied) (ExecBehavior.ok "out" 0) "ls"
      (by decide) (by decide)).2 (by decide)⟩

/-- Every step outcome is handled by an `except` clause and falls through to
`end_turn`. -/
theorem handleStep_end_turn (sessions : List (String × SessionEntry))
    (sessionId : String) (sess : SessionEntry) (msgs : List (String × String))
    (stepResult : Option StepExc) :
    ∃ out, handleStep sessions sessionId sess msgs stepResult = Except.ok out ∧
      out.response = ⟨"end_turn"⟩ := by
  cases stepResult with
  | none => exact ⟨_, rfl, rfl⟩
  | some e =>
    cases e with
    | nonTerminating m => exact ⟨_, rfl, rfl⟩
    | submitted m =>
      cases h : sess.config.confirmExit with
      | true =>
        simp only [handleStep, h]
        exact ⟨_, rfl, rfl⟩
      | false =>
        simp only [handleStep, h]
        exact ⟨_, rfl, rfl⟩
    | limitsExceeded m => exact ⟨_, rfl, rfl⟩
    | otherExc m => exact ⟨_, rfl, rfl⟩

/-- After the agent is available, every branch of the prompt body ends the
turn without an escaping exception. -/
theorem miniPromptAfterInit_end_turn (sessions : List (String × SessionEntry))
    (sessionId : String) (sess : SessionEntry) (blocks : List PromptBlock)
    (extractedCmd : Option String) (stepResult : Option StepExc) :
    ∃ out, miniPromptAfterInit sessions sessionId sess blocks extractedCmd
        stepResult = Except.ok out ∧ out.response = ⟨"end_turn"⟩ := by
  unfold miniPromptAfterInit
  cases htask : sess.task with
  | some t =>
    simp only
    split
    · cases extractedCmd with
      | none => exact ⟨_, rfl, rfl⟩
      | some cmd => exact handleStep_end_turn _ _ _ _ _
    · exact handleStep_end_turn _ _ _ _ _
  | none =>
    simp only
    split
    · cases extractedCmd with
      | none => exact ⟨_, rfl, rfl⟩
      | some cmd => exact handleStep_end_turn _ _ _ _ _
    · exact handleStep_end_turn _ _ _ _ _

/-- C9: for every session table, prompt, agent-creation outcome, extracted
command and step outcome, `MiniSweACPAgent.prompt` completes without an
escaping exception and returns `PromptResponse(stop_reason="end_turn")`:
model-query and action-execution failures are caught, recorded as a
conversation message or surfaced as a session update, and the handler still
ends the turn. -/
theorem miniPrompt_always_end_turn (sessions : List (String × SessionEntry))
    (sessionId : String) (defaultCwd : String) (blocks : List PromptBlock)
    (agentCreation : Option String) (extractedCmd : Option String)
    (stepResult : Option StepExc) :
    ∃ out, miniPrompt sessions sessionId defaultCwd blocks agentCreation
        extractedCmd stepResult = Except.ok out ∧
      out.response = ⟨"end_turn"⟩ := by
  unfold miniPrompt
  cases hlook : sessions.lookup sessionId with
  | some e =>
    simp only
    split
    · exact miniPromptAfterInit_end_turn _ _ _ _ _ _
    · cases agentCreation with
      | some err => exact ⟨_, rfl, rfl⟩
      | none => exact miniPromptAfterInit_end_turn _ _ _ _ _ _
  | none =>
    simp only
    split
    · exact miniPromptAfterInit_end_turn _ _ _ _ _ _
    · cases agentCreation with
      | some err => exact ⟨_, rfl, rfl⟩
      | none => exact miniPromptAfterInit_end_turn _ _ _ _ _ _
